import Mathlib

/-!
Verification of the sparlo-benchmark orchestration pipeline
(src/sparlo-benchmark/benchmark.py) against its specification.

The Python program is shallowly embedded below:
  * `Row` models one ledger row of the results CSV (one field per CSV
    column, in column order).  A judging cell that has never been written
    is `none`; the CSV stores such a cell as a blank.
  * `JudgeResult` models the dict returned by the judge tool call
    (`evaluate_outputs`); a key that may be absent from the dict is an
    `Option` field.
  * `mergeRow` models the merge block of the `evaluate` command
    (benchmark.py lines 456-523), including the exact order of dict reads
    (each a potential KeyError) and row writes, so that a KeyError raised
    midway leaves exactly the writes made so far in the row.
  * `evaluateLedger` models the `evaluate` command: select eligible rows,
    call the judge once per eligible row in ledger order, merge, and
    rewrite the whole file only when at least one row was eligible.
  * `pollLoop` / `run_sparlo` model the submit-then-poll workflow with
    explicit wall-clock time (benchmark.py lines 146-222).
  * `run_claude` models the synchronous backend call with its try/except
    (benchmark.py lines 225-240).
  * `makeRow` / `generateRun` model the `generate` command ledger append
    (benchmark.py lines 341-411).
-/

namespace Sparlo

/-- The six-dimension score object of the judge tool response
(`sparlo_scores` / `claude_scores`).  Each key may be absent from the
returned dict, hence `Option`. -/
structure ScoresResp where
  understanding : Option Int
  novelty : Option Int
  relevance : Option Int
  credibility : Option Int
  actionability : Option Int
  citations : Option Int
deriving DecidableEq

/-- The per-dimension free-text rationale object of the judge response.
Only ever read with dict.get and a default, so missing keys never raise. -/
structure RationaleResp where
  understanding : Option String
  novelty : Option String
  relevance : Option String
  credibility : Option String
  actionability : Option String
  citations : Option String
deriving DecidableEq

/-- The judge tool response dict (`block.input` in `evaluate_outputs`).
Every key may be absent, hence every field is an `Option`. -/
structure JudgeResult where
  sparlo_scores : Option ScoresResp
  claude_scores : Option ScoresResp
  scoring_rationale : Option RationaleResp
  winner : Option String
  sparlo_strengths : Option String
  claude_strengths : Option String
  key_insight : Option String
  cross_domain_sparlo : Option Int
  cross_domain_claude : Option Int
  cross_domain_list_sparlo : Option (List String)
  cross_domain_list_claude : Option (List String)
  would_pay_for_sparlo : Option Bool
  would_pay_rationale : Option String
  verdict_summary : Option String
  notes : Option String
deriving DecidableEq

/-- One ledger row; fields in the order of CSV_COLUMNS.  Judging fields
are `Option` valued: `none` is a cell never written (blank in the CSV). -/
structure Row where
  problem_id : String
  created_at : String
  problem_text : String
  segment : String
  problem_summary : String
  prior_art : String
  domain_spec : String
  contradiction : String
  sweetspot_pred : String
  expected_grade : String
  sparlo_output : String
  claude_output : String
  sparlo_status : String
  claude_status : String
  sparlo_time_sec : String
  claude_time_sec : String
  sparlo_understanding : Option Int
  sparlo_novelty : Option Int
  sparlo_relevance : Option Int
  sparlo_credibility : Option Int
  sparlo_actionability : Option Int
  sparlo_citations : Option Int
  sparlo_total : Option Int
  claude_understanding : Option Int
  claude_novelty : Option Int
  claude_relevance : Option Int
  claude_credibility : Option Int
  claude_actionability : Option Int
  claude_citations : Option Int
  claude_total : Option Int
  winner : Option String
  score_margin : Option Int
  sparlo_strengths : Option String
  claude_strengths : Option String
  key_insight : Option String
  cross_domain_sparlo : Option Int
  cross_domain_claude : Option Int
  cross_domain_list_sparlo : Option String
  cross_domain_list_claude : Option String
  would_pay : Option String
  would_pay_rationale : Option String
  verdict_summary : Option String
  scoring_rationale : Option String
  notes : Option String
  evaluated : String
deriving DecidableEq

/-- All judging columns of a row are blank (never written). -/
def judgingBlank (r : Row) : Bool :=
  r.sparlo_understanding.isNone && r.sparlo_novelty.isNone &&
  r.sparlo_relevance.isNone && r.sparlo_credibility.isNone &&
  r.sparlo_actionability.isNone && r.sparlo_citations.isNone &&
  r.sparlo_total.isNone &&
  r.claude_understanding.isNone && r.claude_novelty.isNone &&
  r.claude_relevance.isNone && r.claude_credibility.isNone &&
  r.claude_actionability.isNone && r.claude_citations.isNone &&
  r.claude_total.isNone &&
  r.winner.isNone && r.score_margin.isNone &&
  r.sparlo_strengths.isNone && r.claude_strengths.isNone &&
  r.key_insight.isNone &&
  r.cross_domain_sparlo.isNone && r.cross_domain_claude.isNone &&
  r.cross_domain_list_sparlo.isNone && r.cross_domain_list_claude.isNone &&
  r.would_pay.isNone && r.would_pay_rationale.isNone &&
  r.verdict_summary.isNone && r.scoring_rationale.isNone && r.notes.isNone

/-- Eligibility filter of the `evaluate` command (benchmark.py 424-426):
`evaluated == the string false` and both backend statuses `complete`. -/
def eligible (r : Row) : Bool :=
  r.evaluated == "false" && r.sparlo_status == "complete" &&
    r.claude_status == "complete"

/-- Python str.join with a comma separator, used for the cross-domain
citation lists (benchmark.py 482-483). -/
def joinComma (xs : List String) : String :=
  String.intercalate ", " xs

/-- The composed SCORING RATIONALE blob (the f-string of benchmark.py
490-519), built from the values in scope at that point of `evaluate`. -/
def fullRationaleText (s1 s2 s3 s4 s5 s6 c1 c2 c3 c4 c5 c6 : Int)
    (rat : RationaleResp) (cds cdc : Int) (listS listC : List String)
    (wp : Bool) (wpr : String) (w : String) (margin st ct : Int)
    (vs : String) : String :=
  "SCORING RATIONALE\n\nUnderstanding (Sparlo: " ++ toString s1 ++
    ", Claude: " ++ toString c1 ++ ")\n" ++
    (rat.understanding.getD "N/A") ++
  "\n\nNovelty (Sparlo: " ++ toString s2 ++ ", Claude: " ++ toString c2 ++
    ")\n" ++ (rat.novelty.getD "N/A") ++
  "\n\nRelevance (Sparlo: " ++ toString s3 ++ ", Claude: " ++ toString c3 ++
    ")\n" ++ (rat.relevance.getD "N/A") ++
  "\n\nCredibility (Sparlo: " ++ toString s4 ++ ", Claude: " ++ toString c4 ++
    ")\n" ++ (rat.credibility.getD "N/A") ++
  "\n\nActionability (Sparlo: " ++ toString s5 ++ ", Claude: " ++ toString c5 ++
    ")\n" ++ (rat.actionability.getD "N/A") ++
  "\n\nCitations (Sparlo: " ++ toString s6 ++ ", Claude: " ++ toString c6 ++
    ")\n" ++ (rat.citations.getD "N/A") ++
  "\n\nCross-Domain Count\nSparlo (" ++ toString cds ++ "): " ++
    joinComma listS ++
  "\nClaude (" ++ toString cdc ++ "): " ++ joinComma listC ++
  "\n\nWould Pay $50+?\nSparlo: " ++ (if wp then "YES" else "NO") ++ ". " ++
    wpr ++
  "\n\nVerdict\n" ++ w.toUpper ++ " wins by " ++ toString margin.natAbs ++
    " points (Sparlo: " ++ toString st ++ ", Claude: " ++ toString ct ++
    ").\n" ++ vs

/-- The merge block of `evaluate` (benchmark.py 456-523), applied to one
row and one judge response.  A dict read of a missing required key raises
KeyError in Python; the surrounding try/except then keeps the row with
exactly the writes made before the raise.  Here that is modelled by
returning the row accumulated so far together with `false`; a completed
merge returns the fully updated row together with `true`. -/
def mergeRow (row : Row) (result : JudgeResult) : Row × Bool :=
  match result.sparlo_scores with
  | none => (row, false)
  | some sparlo =>
   match result.claude_scores with
   | none => (row, false)
   | some claude =>
    match sparlo.understanding with
    | none => (row, false)
    | some s1 =>
     let row := { row with sparlo_understanding := some s1 }
     match sparlo.novelty with
     | none => (row, false)
     | some s2 =>
      let row := { row with sparlo_novelty := some s2 }
      match sparlo.relevance with
      | none => (row, false)
      | some s3 =>
       let row := { row with sparlo_relevance := some s3 }
       match sparlo.credibility with
       | none => (row, false)
       | some s4 =>
        let row := { row with sparlo_credibility := some s4 }
        match sparlo.actionability with
        | none => (row, false)
        | some s5 =>
         let row := { row with sparlo_actionability := some s5 }
         match sparlo.citations with
         | none => (row, false)
         | some s6 =>
          let row := { row with sparlo_citations := some s6, sparlo_total := some (s1 + s2 + s3 + s4 + s5 + s6) }
          match claude.understanding with
          | none => (row, false)
          | some c1 =>
           let row := { row with claude_understanding := some c1 }
           match claude.novelty with
           | none => (row, false)
           | some c2 =>
            let row := { row with claude_novelty := some c2 }
            match claude.relevance with
            | none => (row, false)
            | some c3 =>
             let row := { row with claude_relevance := some c3 }
             match claude.credibility with
             | none => (row, false)
             | some c4 =>
              let row := { row with claude_credibility := some c4 }
              match claude.actionability with
              | none => (row, false)
              | some c5 =>
               let row := { row with claude_actionability := some c5 }
               match claude.citations with
               | none => (row, false)
               | some c6 =>
                let row := { row with claude_citations := some c6, claude_total := some (c1 + c2 + c3 + c4 + c5 + c6) }
                match result.winner with
                | none => (row, false)
                | some w =>
                 let row := { row with winner := some w }
                 match row.sparlo_total, row.claude_total with
                 | some st, some ct =>
                  let margin := st - ct
                  let row := { row with score_margin := some margin }
                  match result.sparlo_strengths with
                  | none => (row, false)
                  | some ssg =>
                   let row := { row with sparlo_strengths := some ssg }
                   match result.claude_strengths with
                   | none => (row, false)
                   | some csg =>
                    let row := { row with claude_strengths := some csg }
                    match result.key_insight with
                    | none => (row, false)
                    | some ki =>
                     let row := { row with key_insight := some ki }
                     match result.cross_domain_sparlo with
                     | none => (row, false)
                     | some cds =>
                      let row := { row with cross_domain_sparlo := some cds }
                      match result.cross_domain_claude with
                      | none => (row, false)
                      | some cdc =>
                       let row := { row with cross_domain_claude := some cdc }
                       let listS := result.cross_domain_list_sparlo.getD []
                       let listC := result.cross_domain_list_claude.getD []
                       let row := { row with cross_domain_list_sparlo := some (joinComma listS), cross_domain_list_claude := some (joinComma listC) }
                       match result.would_pay_for_sparlo with
                       | none => (row, false)
                       | some wp =>
                        let row := { row with would_pay := some (if wp then "true" else "false"), would_pay_rationale := some (result.would_pay_rationale.getD ""), verdict_summary := some (result.verdict_summary.getD "") }
                        let rat := result.scoring_rationale.getD
                          ⟨none, none, none, none, none, none⟩
                        let row := { row with scoring_rationale := some (fullRationaleText s1 s2 s3 s4 s5 s6 c1 c2 c3 c4 c5 c6 rat cds cdc listS listC wp (result.would_pay_rationale.getD "") w margin st ct (result.verdict_summary.getD "")), notes := some (result.notes.getD ""), evaluated := "true" }
                        (row, true)
                 | _, _ => (row, false)

/-- One judge invocation for one eligible row, as seen by the per-row
try/except of `evaluate` (benchmark.py 447-529): a raised exception from
`evaluate_outputs` leaves the row untouched; a returned dict is merged. -/
def applyJudge (row : Row) (call : Except String JudgeResult) : Row :=
  match call with
  | .error _ => row
  | .ok result => (mergeRow row result).1

/-- The evaluation loop body over the ledger rows: each eligible row
receives the next judge call in order (the rows of `to_evaluate` alias the
entries of `rows`, so the merged row replaces the original in place). -/
def processRows (judge : Nat → Except String JudgeResult) (k : Nat) :
    List Row → List Row
  | [] => []
  | r :: rs =>
    if eligible r then applyJudge r (judge k) :: processRows judge (k + 1) rs
    else r :: processRows judge k rs

/-- Number of eligible rows (length of `to_evaluate`). -/
def countEligible (rows : List Row) : Nat :=
  (rows.filter (fun r => eligible r)).length

/-- Outcome of one `evaluate` command run: the ledger contents afterwards,
whether the CSV file was rewritten, and how many judge calls were made. -/
structure EvalRun where
  ledger : List Row
  rewritten : Bool
  judgeCalls : Nat
deriving DecidableEq

/-- The `evaluate` command (benchmark.py 414-545): read all rows, filter
the eligible ones; if none, return early without touching the file;
otherwise judge each eligible row in order and rewrite the whole file. -/
def evaluateLedger (judge : Nat → Except String JudgeResult)
    (rows : List Row) : EvalRun :=
  if countEligible rows = 0 then ⟨rows, false, 0⟩
  else ⟨processRows judge 0 rows, true, countEligible rows⟩

/-- One poll response of the async backend status endpoint: either a
non-success HTTP status on the request itself, or a success response whose
body carries a status string and (when complete) the report payload. -/
inductive PollResp where
  | httpFail
  | status (s : String) (payload : String)
deriving DecidableEq

/-- Behaviour of one poll round: how long the status request takes, and
what it returns. -/
structure PollStep where
  dur : Nat
  resp : PollResp
deriving DecidableEq

/-- Result triple of `run_sparlo`: output text, status string, and total
elapsed wall-clock time. -/
structure SparloResult where
  output : String
  sstatus : String
  elapsed : Nat
deriving DecidableEq

/-- Behaviour of the async backend plus its configuration as seen by
`run_sparlo`: whether the benchmark API key is configured, the HTTP status
and duration of the create-report request, and the behaviour of each
successive poll. -/
structure SparloEnv where
  hasKey : Bool
  createStatus : Nat
  createDur : Nat
  polls : Nat → PollStep

/-- The poll loop of `run_sparlo` (benchmark.py 172-222): while less than
2100 time-units have elapsed, sleep 30 units, issue the status request
(poll number k, issued at time elapsed + 30, taking (polls k).dur units);
a non-success request status is logged and the loop continues; a body
status of complete or error returns; anything else continues.  Once the
budget is met the loop exits with status timeout.  Returns the result and
the list of times at which poll requests were issued. -/
def pollLoop (polls : Nat → PollStep) (k : Nat) (elapsed : Nat) :
    SparloResult × List Nat :=
  if elapsed < 2100 then
    let tPoll := elapsed + 30
    let step := polls k
    let e2 := tPoll + step.dur
    match step.resp with
    | .httpFail =>
      let rest := pollLoop polls (k + 1) e2
      (rest.1, tPoll :: rest.2)
    | .status s payload =>
      if s = "complete" then (⟨payload, "complete", e2⟩, [tPoll])
      else if s = "error" then (⟨"", "error", e2⟩, [tPoll])
      else
        let rest := pollLoop polls (k + 1) e2
        (rest.1, tPoll :: rest.2)
  else (⟨"", "timeout", elapsed⟩, [])
termination_by 2100 - elapsed
decreasing_by omega

/-- The submit-then-poll workflow `run_sparlo` (benchmark.py 146-222):
missing credential or a non-success create request reports status error;
otherwise the poll loop starts after the create request completed. -/
def run_sparlo (env : SparloEnv) : SparloResult × List Nat :=
  if !env.hasKey then (⟨"", "error", 0⟩, [])
  else if env.createStatus ≠ 200 then (⟨"", "error", env.createDur⟩, [])
  else pollLoop env.polls 0 env.createDur

/-- Behaviour of one synchronous backend call in `run_claude`: either the
messages request returns text after some duration, or it raises an
exception with a message after some duration. -/
def run_claude (call : Except (String × Nat) (String × Nat)) :
    String × String × Nat :=
  match call with
  | .ok (text, d) => (text, "complete", d)
  | .error (e, d) => (e, "error", d)

/-- The row dict written by the `generate` command (benchmark.py 386-404):
only identity, input, and execution fields are set; DictWriter fills every
other column (all judging columns) with a blank, and evaluated is the
string false. -/
def makeRow (pid created problem seg summary prior domain contra sweet
    expected : String) (s : SparloResult) (c : String × String × Nat) :
    Row where
  problem_id := pid
  created_at := created
  problem_text := problem
  segment := seg
  problem_summary := summary
  prior_art := prior
  domain_spec := domain
  contradiction := contra
  sweetspot_pred := sweet
  expected_grade := expected
  sparlo_output := s.output
  claude_output := c.1
  sparlo_status := s.sstatus
  claude_status := c.2.1
  sparlo_time_sec := toString s.elapsed
  claude_time_sec := toString c.2.2
  sparlo_understanding := none
  sparlo_novelty := none
  sparlo_relevance := none
  sparlo_credibility := none
  sparlo_actionability := none
  sparlo_citations := none
  sparlo_total := none
  claude_understanding := none
  claude_novelty := none
  claude_relevance := none
  claude_credibility := none
  claude_actionability := none
  claude_citations := none
  claude_total := none
  winner := none
  score_margin := none
  sparlo_strengths := none
  claude_strengths := none
  key_insight := none
  cross_domain_sparlo := none
  cross_domain_claude := none
  cross_domain_list_sparlo := none
  cross_domain_list_claude := none
  would_pay := none
  would_pay_rationale := none
  verdict_summary := none
  scoring_rationale := none
  notes := none
  evaluated := "false"

/-- The `generate` command ledger effect (benchmark.py 341-411): run the
async backend to completion, failure or timeout, then the sync backend,
then unconditionally append exactly one row to the ledger. -/
def generateRun (pid created problem seg summary prior domain contra sweet
    expected : String) (env : SparloEnv)
    (call : Except (String × Nat) (String × Nat)) (ledger : List Row) :
    List Row :=
  let s := (run_sparlo env).1
  let c := run_claude call
  ledger ++ [makeRow pid created problem seg summary prior domain contra
    sweet expected s c]

/-- A poll response that is neither a complete nor an error body status:
either a failed status request or an in-progress body status. -/
def nonTerminalResp : PollResp → Bool
  | .httpFail => true
  | .status s _ => !(s == "complete") && !(s == "error")

/-- All six sub-score keys are present in a score object. -/
def scoresComplete (s : ScoresResp) : Bool :=
  s.understanding.isSome && s.novelty.isSome && s.relevance.isSome &&
    s.credibility.isSome && s.actionability.isSome && s.citations.isSome

/-- Every key that the merge block of `evaluate` reads by plain dict
indexing is present in the judge response, so the merge runs to the end. -/
def resultComplete (res : JudgeResult) : Bool :=
  (match res.sparlo_scores with
   | some s => scoresComplete s
   | none => false) &&
  (match res.claude_scores with
   | some s => scoresComplete s
   | none => false) &&
  res.winner.isSome && res.sparlo_strengths.isSome &&
  res.claude_strengths.isSome && res.key_insight.isSome &&
  res.cross_domain_sparlo.isSome && res.cross_domain_claude.isSome &&
  res.would_pay_for_sparlo.isSome

/-- A judge call that returns (rather than raises) and whose response has
every plainly-indexed key present. -/
def callOk : Except String JudgeResult → Bool
  | .error _ => false
  | .ok res => resultComplete res

/-- A judge response with every schema field present, parameterised by the
field values; the fields only ever read with a dict.get default stay
optional. -/
def fullResultOf (s1 s2 s3 s4 s5 s6 c1 c2 c3 c4 c5 c6 : Int)
    (w ssg csg ki : String) (cds cdc : Int) (rat : Option RationaleResp)
    (lS lC : Option (List String)) (wp : Bool) (wpr vs nts : Option String) :
    JudgeResult where
  sparlo_scores := some ⟨some s1, some s2, some s3, some s4, some s5, some s6⟩
  claude_scores := some ⟨some c1, some c2, some c3, some c4, some c5, some c6⟩
  scoring_rationale := rat
  winner := some w
  sparlo_strengths := some ssg
  claude_strengths := some csg
  key_insight := some ki
  cross_domain_sparlo := some cds
  cross_domain_claude := some cdc
  cross_domain_list_sparlo := lS
  cross_domain_list_claude := lC
  would_pay_for_sparlo := some wp
  would_pay_rationale := wpr
  verdict_summary := vs
  notes := nts

/-- A concrete ledger row as `generate` leaves it after both backends
completed: eligible for judging, all judging columns blank. -/
def sampleRow : Row :=
  ⟨"p-1", "2026-01-01T00:00:00", "problem text", "PDC", "summary", "Low",
   "Single", "Clear", "3", "B", "sparlo out", "claude out", "complete",
   "complete", "1500", "30", none, none, none, none, none, none, none,
   none, none, none, none, none, none, none, none, none, none, none, none,
   none, none, none, none, none, none, none, none, none, "false"⟩

/-- A concrete, fully populated judge response with the sub-scores of the
worked example in the specification: 6,7,8,7,9,8 versus 5,5,6,5,5,6. -/
def fullRes : JudgeResult :=
  fullResultOf 6 7 8 7 9 8 5 5 6 5 5 6 "Sparlo" "strong citations"
    "generic advice" "cross-domain transfer" 3 1
    (some ⟨some "u", some "n", some "r", some "c", some "a", some "ci"⟩)
    (some ["Medical blood warmers"]) (some ["Aerospace"]) true
    (some "worth it") (some "sparlo wins") (some "")

lemma pollLoop_of_not_lt (polls : Nat → PollStep) (k elapsed : Nat)
    (h : ¬ elapsed < 2100) :
    pollLoop polls k elapsed = (⟨"", "timeout", elapsed⟩, []) := by
  rw [pollLoop]
  simp [h]

lemma pollLoop_status_mem (polls : Nat → PollStep) :
    ∀ m k elapsed, 2100 - elapsed ≤ m →
      (pollLoop polls k elapsed).1.sstatus = "complete" ∨
      (pollLoop polls k elapsed).1.sstatus = "error" ∨
      (pollLoop polls k elapsed).1.sstatus = "timeout" := by
  intro m
  induction m with
  | zero =>
    intro k elapsed h
    rw [pollLoop_of_not_lt polls k elapsed (by omega)]
    exact Or.inr (Or.inr rfl)
  | succ m ih =>
    intro k elapsed h
    by_cases hlt : elapsed < 2100
    · rw [pollLoop]
      rw [if_pos hlt]
      cases hr : (polls k).resp with
      | httpFail =>
        simpa [hr] using ih (k + 1) (elapsed + 30 + (polls k).dur) (by omega)
      | status s payload =>
        by_cases hs : s = "complete"
        · simp [hr, hs]
        · by_cases he : s = "error"
          · simp [hr, hs, he]
          · simpa [hr, hs, he] using
              ih (k + 1) (elapsed + 30 + (polls k).dur) (by omega)
    · rw [pollLoop_of_not_lt polls k elapsed hlt]
      exact Or.inr (Or.inr rfl)

lemma pollLoop_timeout (polls : Nat → PollStep)
    (hnt : ∀ j, nonTerminalResp (polls j).resp = true) :
    ∀ m k elapsed, 2100 - elapsed ≤ m →
      (pollLoop polls k elapsed).1.sstatus = "timeout" := by
  intro m
  induction m with
  | zero =>
    intro k elapsed h
    rw [pollLoop_of_not_lt polls k elapsed (by omega)]
  | succ m ih =>
    intro k elapsed h
    by_cases hlt : elapsed < 2100
    · rw [pollLoop]
      rw [if_pos hlt]
      cases hr : (polls k).resp with
      | httpFail =>
        simpa [hr] using ih (k + 1) (elapsed + 30 + (polls k).dur) (by omega)
      | status s payload =>
        have hcs := hnt k
        rw [hr] at hcs
        simp only [nonTerminalResp, Bool.and_eq_true, Bool.not_eq_true',
          beq_eq_false_iff_ne, ne_eq] at hcs
        simpa [hr, hcs.1, hcs.2] using
          ih (k + 1) (elapsed + 30 + (polls k).dur) (by omega)
    · rw [pollLoop_of_not_lt polls k elapsed hlt]

lemma pollLoop_times_spec (polls : Nat → PollStep) :
    ∀ m k elapsed, 2100 - elapsed ≤ m →
      ∀ t ∈ (pollLoop polls k elapsed).2,
        ∃ e, elapsed ≤ e ∧ e < 2100 ∧ t = e + 30 := by
  intro m
  induction m with
  | zero =>
    intro k elapsed h t ht
    rw [pollLoop_of_not_lt polls k elapsed (by omega)] at ht
    simp at ht
  | succ m ih =>
    intro k elapsed h t ht
    by_cases hlt : elapsed < 2100
    · rw [pollLoop] at ht
      rw [if_pos hlt] at ht
      cases hr : (polls k).resp with
      | httpFail =>
        simp only [hr, List.mem_cons] at ht
        rcases ht with rfl | ht
        · exact ⟨elapsed, le_refl _, hlt, rfl⟩
        · obtain ⟨e, he1, he2, he3⟩ :=
            ih (k + 1) (elapsed + 30 + (polls k).dur) (by omega) t ht
          exact ⟨e, by omega, he2, he3⟩
      | status s payload =>
        simp only [hr] at ht
        by_cases hs : s = "complete"
        · rw [if_pos hs] at ht
          simp at ht
          exact ⟨elapsed, le_refl _, hlt, ht⟩
        · rw [if_neg hs] at ht
          by_cases he : s = "error"
          · rw [if_pos he] at ht
            simp at ht
            exact ⟨elapsed, le_refl _, hlt, ht⟩
          · rw [if_neg he] at ht
            simp only [List.mem_cons] at ht
            rcases ht with rfl | ht
            · exact ⟨elapsed, le_refl _, hlt, rfl⟩
            · obtain ⟨e, he1, he2, he3⟩ :=
                ih (k + 1) (elapsed + 30 + (polls k).dur) (by omega) t ht
              exact ⟨e, by omega, he2, he3⟩
    · rw [pollLoop_of_not_lt polls k elapsed hlt] at ht
      simp at ht

lemma pollLoop_times_chain (polls : Nat → PollStep) :
    ∀ m k elapsed, 2100 - elapsed ≤ m →
      List.Chain' (fun a b => a + 30 ≤ b) (pollLoop polls k elapsed).2 := by
  intro m
  induction m with
  | zero =>
    intro k elapsed h
    rw [pollLoop_of_not_lt polls k elapsed (by omega)]
    exact List.chain'_nil
  | succ m ih =>
    intro k elapsed h
    by_cases hlt : elapsed < 2100
    · rw [pollLoop]
      rw [if_pos hlt]
      cases hr : (polls k).resp with
      | httpFail =>
        simp only [hr]
        rw [List.chain'_cons']
        refine ⟨?_, ih (k + 1) (elapsed + 30 + (polls k).dur) (by omega)⟩
        intro b hb
        obtain ⟨e, he1, he2, he3⟩ := pollLoop_times_spec polls m (k + 1)
          (elapsed + 30 + (polls k).dur) (by omega) b
          (List.mem_of_mem_head? hb)
        omega
      | status s payload =>
        by_cases hs : s = "complete"
        · simp [hr, hs]
        · by_cases he : s = "error"
          · simp [hr, hs, he]
          · simp only [hr, if_neg hs, if_neg he]
            rw [List.chain'_cons']
            refine ⟨?_, ih (k + 1) (elapsed + 30 + (polls k).dur) (by omega)⟩
            intro b hb
            obtain ⟨e, he1, he2, he3⟩ := pollLoop_times_spec polls m (k + 1)
              (elapsed + 30 + (polls k).dur) (by omega) b
              (List.mem_of_mem_head? hb)
            omega
    · rw [pollLoop_of_not_lt polls k elapsed hlt]
      exact List.chain'_nil

lemma processRows_length (judge : Nat → Except String JudgeResult) :
    ∀ (k : Nat) (rows : List Row),
      (processRows judge k rows).length = rows.length := by
  intro k rows
  induction rows generalizing k with
  | nil => rfl
  | cons r rs ih =>
    by_cases hr : eligible r
    · simp [processRows, hr, ih]
    · simp [processRows, hr, ih]

lemma countEligible_nil : countEligible [] = 0 := rfl

lemma countEligible_cons (r : Row) (rs : List Row) :
    countEligible (r :: rs) =
      (if eligible r then 1 else 0) + countEligible rs := by
  by_cases hr : eligible r
  · simp [countEligible, List.filter, hr]
    omega
  · simp [countEligible, List.filter, hr]

lemma processRows_cons_pos (judge : Nat → Except String JudgeResult)
    (k : Nat) (x : Row) (xs : List Row) (hx : eligible x = true) :
    processRows judge k (x :: xs) =
      applyJudge x (judge k) :: processRows judge (k + 1) xs := by
  simp [processRows, hx]

lemma processRows_cons_neg (judge : Nat → Except String JudgeResult)
    (k : Nat) (x : Row) (xs : List Row) (hx : eligible x = false) :
    processRows judge k (x :: xs) = x :: processRows judge k xs := by
  simp [processRows, hx]

lemma processRows_getElem? (judge : Nat → Except String JudgeResult) :
    ∀ (rows : List Row) (k i : Nat) (r : Row), rows[i]? = some r →
      (processRows judge k rows)[i]? =
        some (if eligible r then
          applyJudge r (judge (k + countEligible (List.take i rows)))
        else r) := by
  intro rows
  induction rows with
  | nil => intro k i r h; simp at h
  | cons x xs ih =>
    intro k i r h
    cases i with
    | zero =>
      simp only [List.getElem?_cons_zero, Option.some_inj] at h
      subst h
      rcases Bool.eq_false_or_eq_true (eligible x) with hx | hx
      · rw [processRows_cons_pos judge k x xs hx]
        simp [hx, countEligible_nil]
      · rw [processRows_cons_neg judge k x xs hx]
        simp [hx]
    | succ i =>
      simp only [List.getElem?_cons_succ] at h
      rcases Bool.eq_false_or_eq_true (eligible x) with hx | hx
      · rw [processRows_cons_pos judge k x xs hx, List.getElem?_cons_succ,
          ih (k + 1) i r h, List.take_succ_cons, countEligible_cons, hx]
        norm_num [Nat.add_assoc]
      · rw [processRows_cons_neg judge k x xs hx, List.getElem?_cons_succ,
          ih k i r h, List.take_succ_cons, countEligible_cons, hx]
        norm_num

lemma countEligible_pos_of_getElem? {rows : List Row} {i : Nat} {r : Row}
    (h : rows[i]? = some r) (he : eligible r = true) :
    countEligible rows ≠ 0 := by
  have hmem : r ∈ rows := List.getElem?_mem h
  have : r ∈ rows.filter (fun r => eligible r) :=
    List.mem_filter.mpr ⟨hmem, he⟩
  have := List.length_pos.mpr (List.ne_nil_of_mem this)
  simp only [countEligible]
  omega

lemma mergeRow_of_resultComplete (row : Row) (res : JudgeResult)
    (h : resultComplete res = true) :
    (mergeRow row res).1.evaluated = "true" ∧ (mergeRow row res).2 = true := by
  obtain ⟨ss, cs, rat, w, sst, cst, ki, cds, cdc, ls, lc, wp, wpr, vs, nts⟩ :=
    res
  simp only [resultComplete, Bool.and_eq_true] at h
  obtain ⟨⟨⟨⟨⟨⟨⟨⟨hs, hc⟩, hw⟩, hss⟩, hcs⟩, hki⟩, hcds⟩, hcdc⟩, hwp⟩ := h
  cases ss with
  | none => simp at hs
  | some s =>
    cases cs with
    | none => simp at hc
    | some c =>
      obtain ⟨su, sn, sr, sc, sa, sci⟩ := s
      obtain ⟨cu, cn, cr, cc, ca, cci⟩ := c
      simp only [scoresComplete, Bool.and_eq_true] at hs hc
      obtain ⟨⟨⟨⟨⟨hs1, hs2⟩, hs3⟩, hs4⟩, hs5⟩, hs6⟩ := hs
      obtain ⟨⟨⟨⟨⟨hc1, hc2⟩, hc3⟩, hc4⟩, hc5⟩, hc6⟩ := hc
      obtain ⟨s1, hs1⟩ := Option.isSome_iff_exists.mp hs1
      obtain ⟨s2, hs2⟩ := Option.isSome_iff_exists.mp hs2
      obtain ⟨s3, hs3⟩ := Option.isSome_iff_exists.mp hs3
      obtain ⟨s4, hs4⟩ := Option.isSome_iff_exists.mp hs4
      obtain ⟨s5, hs5⟩ := Option.isSome_iff_exists.mp hs5
      obtain ⟨s6, hs6⟩ := Option.isSome_iff_exists.mp hs6
      obtain ⟨c1, hc1⟩ := Option.isSome_iff_exists.mp hc1
      obtain ⟨c2, hc2⟩ := Option.isSome_iff_exists.mp hc2
      obtain ⟨c3, hc3⟩ := Option.isSome_iff_exists.mp hc3
      obtain ⟨c4, hc4⟩ := Option.isSome_iff_exists.mp hc4
      obtain ⟨c5, hc5⟩ := Option.isSome_iff_exists.mp hc5
      obtain ⟨c6, hc6⟩ := Option.isSome_iff_exists.mp hc6
      obtain ⟨w0, hw⟩ := Option.isSome_iff_exists.mp hw
      obtain ⟨ss0, hss⟩ := Option.isSome_iff_exists.mp hss
      obtain ⟨cs0, hcs⟩ := Option.isSome_iff_exists.mp hcs
      obtain ⟨ki0, hki⟩ := Option.isSome_iff_exists.mp hki
      obtain ⟨cds0, hcds⟩ := Option.isSome_iff_exists.mp hcds
      obtain ⟨cdc0, hcdc⟩ := Option.isSome_iff_exists.mp hcdc
      obtain ⟨wp0, hwp⟩ := Option.isSome_iff_exists.mp hwp
      subst hs1 hs2 hs3 hs4 hs5 hs6 hc1 hc2 hc3 hc4 hc5 hc6 hw hss hcs hki
        hcds hcdc hwp
      exact ⟨rfl, rfl⟩

lemma eligible_false_of_evaluated_true {r : Row} (h : r.evaluated = "true") :
    eligible r = false := by
  simp only [eligible, h]
  rfl

lemma countEligible_processRows_eq_zero
    (j : Nat → Except String JudgeResult) (h : ∀ k, callOk (j k) = true) :
    ∀ (rows : List Row) (k : Nat),
      countEligible (processRows j k rows) = 0 := by
  intro rows
  induction rows with
  | nil => intro k; rfl
  | cons x xs ih =>
    intro k
    rcases Bool.eq_false_or_eq_true (eligible x) with hx | hx
    · rw [processRows_cons_pos j k x xs hx, countEligible_cons]
      have hok := h k
      cases hj : j k with
      | error e => rw [hj] at hok; simp [callOk] at hok
      | ok res =>
        rw [hj] at hok
        simp only [callOk] at hok
        have hev := (mergeRow_of_resultComplete x res hok).1
        have : eligible (applyJudge x (Except.ok res)) = false := by
          simpa [applyJudge] using eligible_false_of_evaluated_true hev
        rw [this, ih (k + 1)]
        simp
    · rw [processRows_cons_neg j k x xs hx, countEligible_cons, hx, ih k]
      simp

lemma run_claude_status_cases
    (call : Except (String × Nat) (String × Nat)) :
    (run_claude call).2.1 = "complete" ∨ (run_claude call).2.1 = "error" := by
  rcases call with ⟨e, d⟩ | ⟨t, d⟩
  · exact Or.inr rfl
  · exact Or.inl rfl

lemma run_sparlo_status_cases (env : SparloEnv) :
    (run_sparlo env).1.sstatus = "complete" ∨
    (run_sparlo env).1.sstatus = "error" ∨
    (run_sparlo env).1.sstatus = "timeout" := by
  unfold run_sparlo
  by_cases hk : env.hasKey
  · simp only [hk, Bool.not_true, Bool.false_eq_true, if_false]
    by_cases hc : env.createStatus ≠ 200
    · simp [hc]
    · simp only [hc, if_false]
      exact pollLoop_status_mem env.polls 2100 0 env.createDur (by omega)
  · simp only [Bool.not_eq_true] at hk
    simp [hk]

lemma run_sparlo_times_spec (env : SparloEnv) :
    ∀ t ∈ (run_sparlo env).2, ∃ e, e < 2100 ∧ t = e + 30 := by
  intro t ht
  unfold run_sparlo at ht
  split at ht
  · simp at ht
  · split at ht
    · simp at ht
    · obtain ⟨e, _, he2, he3⟩ := pollLoop_times_spec env.polls 2100 0
        env.createDur (by omega) t ht
      exact ⟨e, he2, he3⟩

lemma run_sparlo_times_chain (env : SparloEnv) :
    List.Chain' (fun a b => a + 30 ≤ b) (run_sparlo env).2 := by
  unfold run_sparlo
  split
  · exact List.chain'_nil
  · split
    · exact List.chain'_nil
    · exact pollLoop_times_chain env.polls 2100 0 env.createDur (by omega)

lemma run_sparlo_timeout_of_nonterminal (env : SparloEnv)
    (hk : env.hasKey = true) (hc : env.createStatus = 200)
    (hnt : ∀ j, nonTerminalResp (env.polls j).resp = true) :
    (run_sparlo env).1.sstatus = "timeout" := by
  unfold run_sparlo
  rw [hk]
  rw [if_neg (by simp)]
  rw [if_neg (by omega)]
  exact pollLoop_timeout env.polls hnt 2100 0 env.createDur (by omega)

/-- C4: for every backend behaviour the submit-then-poll sequence of
`run_sparlo` is a total function (so it never loops forever); every poll
request is issued exactly 30 time-units after a loop entry that passed the
2100-unit budget check (so no poll is issued once the budget has elapsed,
and the fixed 30-unit wait precedes every request, with at least 30 units
between consecutive polls); and when the submission is accepted but no
poll ever returns a complete or error status, the sequence returns with
status timeout. -/
theorem claim_poll_loop_termination (env : SparloEnv) :
    ((run_sparlo env).1.sstatus = "complete" ∨
      (run_sparlo env).1.sstatus = "error" ∨
      (run_sparlo env).1.sstatus = "timeout") ∧
    ((∀ t ∈ (run_sparlo env).2, ∃ e, e < 2100 ∧ t = e + 30) ∧
      List.Chain' (fun a b => a + 30 ≤ b) (run_sparlo env).2) ∧
    (env.hasKey = true → env.createStatus = 200 →
      (∀ j, nonTerminalResp (env.polls j).resp = true) →
      (run_sparlo env).1.sstatus = "timeout") :=
  ⟨run_sparlo_status_cases env,
   ⟨run_sparlo_times_spec env, run_sparlo_times_chain env⟩,
   fun hk hc hnt => run_sparlo_timeout_of_nonterminal env hk hc hnt⟩

theorem claim_poll_loop_termination_witness :
    (run_sparlo ⟨true, 200, 0,
      fun _ => ⟨3000, PollResp.status "processing" ""⟩⟩).1.sstatus =
      "timeout" :=
  (claim_poll_loop_termination _).2.2 rfl rfl (fun _ => rfl)

/-- C9: a transient poll request failure (non-success HTTP status on the
status request) does not leave the polling state: the request is logged as
a poll at time elapsed + 30 and the loop continues with the next poll
round, under the same 2100-unit budget accumulated in elapsed. -/
theorem claim_transient_poll_failure (polls : Nat → PollStep)
    (k elapsed : Nat) (hlt : elapsed < 2100)
    (hf : (polls k).resp = PollResp.httpFail) :
    pollLoop polls k elapsed =
      ((pollLoop polls (k + 1) (elapsed + 30 + (polls k).dur)).1,
        (elapsed + 30) ::
          (pollLoop polls (k + 1) (elapsed + 30 + (polls k).dur)).2) := by
  rw [pollLoop]
  rw [if_pos hlt]
  simp only [hf]

/-- Poll behaviour whose first status request fails at the transport level
and whose second returns an error body. -/
def pollsTransient : Nat → PollStep :=
  fun n => if n = 0 then ⟨0, PollResp.httpFail⟩
    else ⟨0, PollResp.status "error" ""⟩

theorem claim_transient_poll_failure_witness :
    pollLoop pollsTransient 0 0 =
      ((pollLoop pollsTransient (0 + 1) (0 + 30 + (pollsTransient 0).dur)).1,
        (0 + 30) ::
          (pollLoop pollsTransient (0 + 1)
            (0 + 30 + (pollsTransient 0).dur)).2) :=
  claim_transient_poll_failure pollsTransient 0 0 (by norm_num) rfl

/-- C8: the sync backend call never propagates an exception to its caller:
every outcome is reported as status complete or status error, an exception
with message e raised after d units is reported as the triple
(e, error, d), and a successful response is reported as
(text, complete, d). -/
theorem claim_sync_call_never_raises
    (call : Except (String × Nat) (String × Nat)) :
    ((run_claude call).2.1 = "complete" ∨ (run_claude call).2.1 = "error") ∧
    (∀ e d, call = Except.error (e, d) → run_claude call = (e, "error", d)) ∧
    (∀ t d, call = Except.ok (t, d) → run_claude call = (t, "complete", d)) := by
  refine ⟨run_claude_status_cases call, ?_, ?_⟩
  · intro e d h
    subst h
    rfl
  · intro t d h
    subst h
    rfl

theorem claim_sync_call_never_raises_witness :
    run_claude (Except.error ("connection reset", 2)) =
      ("connection reset", "error", 2) :=
  (claim_sync_call_never_raises _).2.1 "connection reset" 2 rfl

/-- C2: every invocation of generate appends exactly one ledger row,
whatever the backends did (the async backend always ends in complete,
error or timeout; the sync backend in complete or error); the appended row
records both statuses verbatim, has evaluated false, and every judging
column blank, and the rows already present are untouched. -/
theorem claim_generate_always_appends
    (pid created problem seg summary prior domain contra sweet expected :
      String) (env : SparloEnv)
    (call : Except (String × Nat) (String × Nat)) (ledger : List Row) :
    generateRun pid created problem seg summary prior domain contra sweet
        expected env call ledger =
      ledger ++ [makeRow pid created problem seg summary prior domain
        contra sweet expected (run_sparlo env).1 (run_claude call)] ∧
    (generateRun pid created problem seg summary prior domain contra sweet
        expected env call ledger).length = ledger.length + 1 ∧
    (makeRow pid created problem seg summary prior domain contra sweet
        expected (run_sparlo env).1 (run_claude call)).evaluated = "false" ∧
    judgingBlank (makeRow pid created problem seg summary prior domain
        contra sweet expected (run_sparlo env).1 (run_claude call)) = true ∧
    (makeRow pid created problem seg summary prior domain contra sweet
        expected (run_sparlo env).1 (run_claude call)).sparlo_status =
      (run_sparlo env).1.sstatus ∧
    (makeRow pid created problem seg summary prior domain contra sweet
        expected (run_sparlo env).1 (run_claude call)).claude_status =
      (run_claude call).2.1 ∧
    ((run_sparlo env).1.sstatus = "complete" ∨
      (run_sparlo env).1.sstatus = "error" ∨
      (run_sparlo env).1.sstatus = "timeout") ∧
    ((run_claude call).2.1 = "complete" ∨ (run_claude call).2.1 = "error") := by
  refine ⟨rfl, ?_, rfl, rfl, rfl, rfl, run_sparlo_status_cases env,
    run_claude_status_cases call⟩
  simp [generateRun]

/-- C7: evaluate selects exactly the rows with both backend statuses
complete and evaluated false, in ledger order (the n-th eligible row
receives the n-th judge call), makes one judge call per eligible row, and
leaves every other row (already evaluated or not complete) with all of its
fields unchanged. -/
theorem claim_evaluate_frame (judge : Nat → Except String JudgeResult)
    (rows : List Row) :
    (evaluateLedger judge rows).ledger.length = rows.length ∧
    (evaluateLedger judge rows).judgeCalls = countEligible rows ∧
    (∀ i r, rows[i]? = some r →
      (eligible r = false →
        (evaluateLedger judge rows).ledger[i]? = some r) ∧
      (eligible r = true →
        (evaluateLedger judge rows).ledger[i]? =
          some (applyJudge r
            (judge (countEligible (List.take i rows)))))) := by
  unfold evaluateLedger
  by_cases h0 : countEligible rows = 0
  · rw [if_pos h0]
    refine ⟨rfl, h0.symm, ?_⟩
    intro i r hr
    constructor
    · intro _
      exact hr
    · intro he
      exact absurd h0 (countEligible_pos_of_getElem? hr he)
  · rw [if_neg h0]
    refine ⟨processRows_length judge 0 rows, rfl, ?_⟩
    intro i r hr
    constructor
    · intro he
      have hq := processRows_getElem? judge rows 0 i r hr
      rw [he] at hq
      simpa using hq
    · intro he
      have hq := processRows_getElem? judge rows 0 i r hr
      rw [he] at hq
      simpa using hq

/-- A row whose judging already happened: not eligible again. -/
def rowDone : Row := { sampleRow with evaluated := "true" }

theorem claim_evaluate_frame_witness :
    (evaluateLedger (fun _ => Except.ok fullRes)
      [rowDone, sampleRow]).ledger[0]? = some rowDone ∧
    (evaluateLedger (fun _ => Except.ok fullRes)
      [rowDone, sampleRow]).ledger[1]? =
      some (applyJudge sampleRow (Except.ok fullRes)) := by
  have h := claim_evaluate_frame (fun _ => Except.ok fullRes)
    [rowDone, sampleRow]
  exact ⟨(h.2.2 0 rowDone rfl).1 (by decide),
    (h.2.2 1 sampleRow rfl).2 (by decide)⟩

/-- C10: when no ledger row is eligible (every row has evaluated different
from the string false, or a backend status other than complete), evaluate
makes zero judge calls and returns early, without rewriting the file, so
the stored ledger is unchanged. -/
theorem claim_evaluate_no_eligible (judge : Nat → Except String JudgeResult)
    (rows : List Row) (h : ∀ r ∈ rows, eligible r = false) :
    evaluateLedger judge rows = ⟨rows, false, 0⟩ := by
  have h0 : countEligible rows = 0 := by
    simp only [countEligible, List.length_eq_zero]
    rw [List.filter_eq_nil_iff]
    intro a ha
    simp [h a ha]
  simp [evaluateLedger, h0]

theorem claim_evaluate_no_eligible_witness :
    evaluateLedger (fun _ => Except.error "judge down") [rowDone] =
      ⟨[rowDone], false, 0⟩ :=
  claim_evaluate_no_eligible _ [rowDone] (by decide)

/-- C3 as stated fails on the code: one eligible row, a judge call that
raises in the first run; the row stays eligible (by design), so a second
run in direct succession, with no rows added or completed in between,
still performs one judge call, and when that call succeeds it changes the
judging columns: the first run leaves (evaluated, sparlo_total) at
(false, blank), the second sets them to (true, 45). -/
theorem claim_evaluate_twice_counterexample :
    (evaluateLedger (fun _ => Except.ok fullRes)
        ((evaluateLedger (fun _ => Except.error "rate limited")
          [sampleRow]).ledger)).judgeCalls = 1 ∧
    ((evaluateLedger (fun _ => Except.error "rate limited")
        [sampleRow]).ledger.map (fun r => (r.evaluated, r.sparlo_total))) =
      [("false", none)] ∧
    ((evaluateLedger (fun _ => Except.ok fullRes)
        ((evaluateLedger (fun _ => Except.error "rate limited")
          [sampleRow]).ledger)).ledger.map
        (fun r => (r.evaluated, r.sparlo_total))) = [("true", some 45)] :=
  ⟨rfl, rfl, rfl⟩

/-- C3 amended: when every judge call of the first run returns a response
with all plainly-indexed required fields present (so each eligible row is
fully merged and marked evaluated), a second run in direct succession
performs zero judge calls, does not rewrite the file, and leaves the
ledger, judging columns included, unchanged. -/
theorem claim_evaluate_idempotent (j1 j2 : Nat → Except String JudgeResult)
    (rows : List Row) (h : ∀ k, callOk (j1 k) = true) :
    (evaluateLedger j2 (evaluateLedger j1 rows).ledger).judgeCalls = 0 ∧
    (evaluateLedger j2 (evaluateLedger j1 rows).ledger).ledger =
      (evaluateLedger j1 rows).ledger ∧
    (evaluateLedger j2 (evaluateLedger j1 rows).ledger).rewritten = false := by
  have h0 : countEligible (evaluateLedger j1 rows).ledger = 0 := by
    unfold evaluateLedger
    by_cases hc : countEligible rows = 0
    · rw [if_pos hc]
      exact hc
    · rw [if_neg hc]
      exact countEligible_processRows_eq_zero j1 h rows 0
  have key : evaluateLedger j2 (evaluateLedger j1 rows).ledger =
      ⟨(evaluateLedger j1 rows).ledger, false, 0⟩ := by
    generalize (evaluateLedger j1 rows).ledger = L at h0 ⊢
    simp [evaluateLedger, h0]
  rw [key]
  exact ⟨rfl, rfl, rfl⟩

theorem claim_evaluate_idempotent_witness :
    (evaluateLedger (fun _ => Except.error "second run")
        ((evaluateLedger (fun _ => Except.ok fullRes)
          [sampleRow]).ledger)).judgeCalls = 0 ∧
    (evaluateLedger (fun _ => Except.error "second run")
        ((evaluateLedger (fun _ => Except.ok fullRes)
          [sampleRow]).ledger)).rewritten = false :=
  have h := claim_evaluate_idempotent (fun _ => Except.ok fullRes)
    (fun _ => Except.error "second run") [sampleRow] (fun _ => rfl)
  ⟨h.1, h.2.2⟩

/-- A judge response whose sparlo_scores object carries only the
understanding key: the merge writes that one field, then hits a missing
novelty key. -/
def partialRes : JudgeResult where
  sparlo_scores := some ⟨some 5, none, none, none, none, none⟩
  claude_scores := some ⟨some 5, some 5, some 6, some 5, some 5, some 6⟩
  scoring_rationale := none
  winner := none
  sparlo_strengths := none
  claude_strengths := none
  key_insight := none
  cross_domain_sparlo := none
  cross_domain_claude := none
  cross_domain_list_sparlo := none
  cross_domain_list_claude := none
  would_pay_for_sparlo := none
  would_pay_rationale := none
  verdict_summary := none
  notes := none

/-- C1 fails on the code: on an eligible row, a judge response whose
sparlo_scores dict holds only the understanding key makes the merge write
sparlo_understanding before the read of the missing novelty key raises;
the per-row except block keeps the partially written row, evaluated stays
false, and the end-of-run rewrite persists it — a stored row with
evaluated false and a non-blank judging field. -/
theorem claim_partial_judgment_persisted :
    (evaluateLedger (fun _ => Except.ok partialRes)
      [sampleRow]).rewritten = true ∧
    ((evaluateLedger (fun _ => Except.ok partialRes)
        [sampleRow]).ledger.map
      (fun r => (r.evaluated, r.sparlo_understanding, r.sparlo_novelty))) =
      [("false", some 5, none)] :=
  ⟨rfl, rfl⟩

/-- A judge response complete except for the required verdict_summary
field. -/
def noSummaryRes : JudgeResult := { fullRes with verdict_summary := none }

/-- C5 fails on the code: verdict_summary (like would_pay_rationale,
scoring_rationale and the two cross-domain lists) is in the required list
of the submit_evaluation schema, but the merge reads it with dict.get and
a blank default, so a response missing it is treated as a full success:
the row is merged and marked evaluated true instead of being failed with
nothing merged. -/
theorem claim_missing_required_field_merged :
    ((evaluateLedger (fun _ => Except.ok noSummaryRes)
        [sampleRow]).ledger.map
      (fun r => (r.evaluated, r.verdict_summary))) = [("true", some "")] :=
  rfl

/-- C6: for every successfully merged judge response, the stored total per
backend is the sum of that backend sub-score object (six sub-scores), the
stored margin is the Sparlo total minus the Claude total as a signed
integer, whatever winner tag w the judge reported; and when every
sub-score lies in 1..10 both totals lie in 6..60. -/
theorem claim_totals_and_margin (row : Row)
    (s1 s2 s3 s4 s5 s6 c1 c2 c3 c4 c5 c6 : Int) (w ssg csg ki : String)
    (cds cdc : Int) (rat : Option RationaleResp)
    (lS lC : Option (List String)) (wp : Bool)
    (wpr vs nts : Option String) :
    (mergeRow row (fullResultOf s1 s2 s3 s4 s5 s6 c1 c2 c3 c4 c5 c6 w ssg
      csg ki cds cdc rat lS lC wp wpr vs nts)).2 = true ∧
    (mergeRow row (fullResultOf s1 s2 s3 s4 s5 s6 c1 c2 c3 c4 c5 c6 w ssg
      csg ki cds cdc rat lS lC wp wpr vs nts)).1.sparlo_total =
      some (s1 + s2 + s3 + s4 + s5 + s6) ∧
    (mergeRow row (fullResultOf s1 s2 s3 s4 s5 s6 c1 c2 c3 c4 c5 c6 w ssg
      csg ki cds cdc rat lS lC wp wpr vs nts)).1.claude_total =
      some (c1 + c2 + c3 + c4 + c5 + c6) ∧
    (mergeRow row (fullResultOf s1 s2 s3 s4 s5 s6 c1 c2 c3 c4 c5 c6 w ssg
      csg ki cds cdc rat lS lC wp wpr vs nts)).1.score_margin =
      some ((s1 + s2 + s3 + s4 + s5 + s6) - (c1 + c2 + c3 + c4 + c5 + c6)) ∧
    (mergeRow row (fullResultOf s1 s2 s3 s4 s5 s6 c1 c2 c3 c4 c5 c6 w ssg
      csg ki cds cdc rat lS lC wp wpr vs nts)).1.winner = some w ∧
    (mergeRow row (fullResultOf s1 s2 s3 s4 s5 s6 c1 c2 c3 c4 c5 c6 w ssg
      csg ki cds cdc rat lS lC wp wpr vs nts)).1.evaluated = "true" ∧
    ((1 ≤ s1 ∧ s1 ≤ 10 ∧ 1 ≤ s2 ∧ s2 ≤ 10 ∧ 1 ≤ s3 ∧ s3 ≤ 10 ∧
      1 ≤ s4 ∧ s4 ≤ 10 ∧ 1 ≤ s5 ∧ s5 ≤ 10 ∧ 1 ≤ s6 ∧ s6 ≤ 10 ∧
      1 ≤ c1 ∧ c1 ≤ 10 ∧ 1 ≤ c2 ∧ c2 ≤ 10 ∧ 1 ≤ c3 ∧ c3 ≤ 10 ∧
      1 ≤ c4 ∧ c4 ≤ 10 ∧ 1 ≤ c5 ∧ c5 ≤ 10 ∧ 1 ≤ c6 ∧ c6 ≤ 10) →
      (6 ≤ s1 + s2 + s3 + s4 + s5 + s6 ∧ s1 + s2 + s3 + s4 + s5 + s6 ≤ 60 ∧
       6 ≤ c1 + c2 + c3 + c4 + c5 + c6 ∧
       c1 + c2 + c3 + c4 + c5 + c6 ≤ 60)) := by
  refine ⟨rfl, rfl, rfl, rfl, rfl, rfl, ?_⟩
  intro hr
  omega

theorem claim_totals_and_margin_witness :
    (mergeRow sampleRow (fullResultOf 6 7 8 7 9 8 5 5 6 5 5 6 "Claude" "a"
      "b" "c" 2 1 none none none true none none none)).1.sparlo_total =
      some 45 ∧
    (mergeRow sampleRow (fullResultOf 6 7 8 7 9 8 5 5 6 5 5 6 "Claude" "a"
      "b" "c" 2 1 none none none true none none none)).1.claude_total =
      some 32 ∧
    (mergeRow sampleRow (fullResultOf 6 7 8 7 9 8 5 5 6 5 5 6 "Claude" "a"
      "b" "c" 2 1 none none none true none none none)).1.score_margin =
      some 13 ∧
    (mergeRow sampleRow (fullResultOf 6 7 8 7 9 8 5 5 6 5 5 6 "Claude" "a"
      "b" "c" 2 1 none none none true none none none)).1.winner =
      some "Claude" ∧
    (6 : Int) ≤ 45 ∧ (45 : Int) ≤ 60 ∧ (6 : Int) ≤ 32 ∧ (32 : Int) ≤ 60 := by
  have h := claim_totals_and_margin sampleRow 6 7 8 7 9 8 5 5 6 5 5 6
    "Claude" "a" "b" "c" 2 1 none none none true none none none
  have hrange := h.2.2.2.2.2.2 (by norm_num)
  refine ⟨?_, ?_, ?_, ?_, ?_, ?_, ?_, ?_⟩
  · simpa using h.2.1
  · simpa using h.2.2.1
  · simpa using h.2.2.2.1
  · exact h.2.2.2.2.1
  · exact hrange.1
  · exact hrange.2.1
  · exact hrange.2.2.1
  · exact hrange.2.2.2

end Sparlo
